import Mathlib

/-!
Shallow embedding of the token-lifecycle coordination code of this
repository (sharedAPI/src/shared/api/tokenManager.ts, apiClient.ts,
typescript/tokenStore.ts and the retry module), together with theorems
settling the frozen claims about it.

Modelling conventions, used throughout:
* Machine time is an `Int` of epoch milliseconds (`Date.now()`).
* A stored timestamp string is modelled by `JSDate`: `valid ms` for a
  string that `new Date(s)` parses to the epoch value `ms`, `invalid`
  for a malformed nonempty string (an Invalid Date, whose `getTime()` is
  NaN: every relational comparison against it is false).  A `null` or
  empty-string field is `none` of `Option JSDate`; the sources only test
  such fields with JS truthiness, and an empty string is both falsy and
  parses to an Invalid Date, so folding it into `none` preserves every
  observable branch.
* JS truthiness of a nullable string field is `strTruthy`.
* Cooperative (single-threaded) scheduling: an `async` body runs
  atomically up to its first `await`; the functions below give the state
  after one such atomic step, or after the whole operation has settled,
  with the externally visible outcome of the awaited call supplied as a
  parameter.
* Persistence writes can fail; the failure is a parameter.  Persistence
  removals (`clearTokens`) are modelled as reliable: no claim under
  study concerns a failing remove.
-/

namespace Shared

/-- Result pattern of util/result.ts: Ok with data or Err with an error. -/
inductive RResult (α : Type) (ε : Type) where
  | Ok : α → RResult α ε
  | Err : ε → RResult α ε
deriving DecidableEq

/-- A JS Date value obtained from a stored timestamp string: a parsed
epoch-millisecond value, or an Invalid Date (NaN time). -/
inductive JSDate where
  | valid (ms : Int)
  | invalid
deriving DecidableEq

/-- `new Date(d.getTime() - k)`: shifting an Invalid Date stays invalid. -/
def jsSubMs : JSDate → Int → JSDate
  | .valid ms, k => .valid (ms - k)
  | .invalid, _ => .invalid

/-- JS `now >= d` for a Date `d`: false when `d` is invalid (NaN compares
false both ways). -/
def jsGeNow (now : Int) : JSDate → Bool
  | .valid ms => decide (ms ≤ now)
  | .invalid => false

/-- JS `now < d` for a Date `d`: false when `d` is invalid. -/
def jsLtNow (now : Int) : JSDate → Bool
  | .valid ms => decide (now < ms)
  | .invalid => false

/-- JS truthiness of a nullable string: null and the empty string are falsy. -/
def strTruthy : Option String → Bool
  | none => false
  | some s => decide (s ≠ "")

/-- The credential pair of tokenManager.ts (interface Token): two token
strings and their expiry timestamps. -/
structure Token where
  accessToken : String
  refreshToken : String
  accessTokenExpiresAt : JSDate
  refreshTokenExpiresAt : JSDate
deriving DecidableEq

/-- The four persisted fields (storage keys accessToken, refreshToken,
accessTokenExpiresAt, refreshTokenExpiresAt). -/
structure Persisted where
  accessToken : Option String
  refreshToken : Option String
  accessTokenExpiresAt : Option JSDate
  refreshTokenExpiresAt : Option JSDate
deriving DecidableEq

/-- The empty persistence (all four keys absent). -/
def Persisted.empty : Persisted :=
  { accessToken := none, refreshToken := none
    accessTokenExpiresAt := none, refreshTokenExpiresAt := none }

/-- Error values of util/appErrors.ts as far as the token-lifecycle code
produces them.  `UNKNOWN_ERROR` is what `wrapAsync` builds from a
persistence exception (the storage failure of setTokens); `business n`
stands for a callback-supplied business error, carried through
unchanged. -/
inductive AppErr where
  | TOKEN_NOT_FOUND
  | TOKEN_REFRESH_FAILED
  | UNKNOWN_ERROR
  | business (code : Nat)
deriving DecidableEq

/-- In-memory state of TokenManager (tokenManager.ts lines 19-25):
the four credential fields and the memoized in-flight refresh promise,
the latter modelled as the identifier of the in-flight operation. -/
structure TokenManager where
  accessToken : Option String
  refreshToken : Option String
  accessTokenExpiresAt : Option JSDate
  refreshTokenExpiresAt : Option JSDate
  refreshPromise : Option Nat
deriving DecidableEq

/-- A fresh TokenManager (constructor state: all fields null). -/
def TokenManager.empty : TokenManager :=
  { accessToken := none, refreshToken := none, accessTokenExpiresAt := none
    refreshTokenExpiresAt := none, refreshPromise := none }

/-- setTokens (tokenManager.ts lines 57-71): write all four fields to
storage, then commit them to memory.  When persistence fails, `wrapAsync`
catches the rejection: memory is left untouched (the memory commit stands
after all writes) and an UNKNOWN_ERROR AppError is returned. -/
def TokenManager.setTokensRun (s : TokenManager) (p : Persisted) (t : Token)
    (persistFails : Bool) : RResult Unit AppErr × TokenManager × Persisted :=
  if persistFails then (.Err .UNKNOWN_ERROR, s, p)
  else
    (.Ok (),
     { s with accessToken := some t.accessToken, refreshToken := some t.refreshToken
              accessTokenExpiresAt := some t.accessTokenExpiresAt
              refreshTokenExpiresAt := some t.refreshTokenExpiresAt },
     { accessToken := some t.accessToken, refreshToken := some t.refreshToken
       accessTokenExpiresAt := some t.accessTokenExpiresAt
       refreshTokenExpiresAt := some t.refreshTokenExpiresAt })

/-- clearTokens (tokenManager.ts lines 73-88): remove the four keys from
storage, null the four memory fields and the refresh promise. -/
def TokenManager.clearTokensRun (s : TokenManager) (p : Persisted) :
    TokenManager × Persisted :=
  ({ s with accessToken := none, refreshToken := none, accessTokenExpiresAt := none
            refreshTokenExpiresAt := none, refreshPromise := none },
   { p with accessToken := none, refreshToken := none, accessTokenExpiresAt := none
            refreshTokenExpiresAt := none })

/-- isRefreshTokenValid (tokenManager.ts lines 115-125): false when the
expiry field is falsy, else `now < expiryDate` (false on Invalid Date;
the catch branch is unreachable, Date construction does not throw). -/
def TokenManager.isRefreshTokenValid (s : TokenManager) (now : Int) : Bool :=
  match s.refreshTokenExpiresAt with
  | none => false
  | some d => jsLtNow now d

/-- isAccessTokenExpiringSoon (tokenManager.ts lines 102-113): false when
the expiry field is falsy, else `now >= expiry - minutes*60*1000`. -/
def TokenManager.isAccessTokenExpiringSoon (s : TokenManager) (now : Int)
    (minutesBeforeExpiry : Int) : Bool :=
  match s.accessTokenExpiresAt with
  | none => false
  | some d => jsGeNow now (jsSubMs d (minutesBeforeExpiry * 60 * 1000))

/-- initialize() of tokenManager.ts (lines 31-55), here `initializeRun`
(`initialize` is a Lean keyword): load the four persisted fields into
memory, then, when a refresh token is present (truthy) but not valid,
clear everything and report refreshTokenExpired = true. -/
def TokenManager.initializeRun (s : TokenManager) (p : Persisted) (now : Int) :
    RResult Bool AppErr × TokenManager × Persisted :=
  let loaded : TokenManager :=
    { s with accessToken := p.accessToken, refreshToken := p.refreshToken
             accessTokenExpiresAt := p.accessTokenExpiresAt
             refreshTokenExpiresAt := p.refreshTokenExpiresAt }
  let hadRefreshToken := strTruthy loaded.refreshToken
  let refreshTokenExpired := hadRefreshToken && !(loaded.isRefreshTokenValid now)
  if refreshTokenExpired then
    let (m2, p2) := loaded.clearTokensRun p
    (.Ok true, m2, p2)
  else (.Ok false, loaded, p)

/-- Outcome the injected refresh callback settles with: a Result Ok with a
new pair, a Result Err (business-level rejection), or a thrown exception
(rejected promise: network failure, timeout). -/
inductive CbOutcome where
  | ok (t : Token)
  | err (e : AppErr)
  | exn
deriving DecidableEq

/-- What a call to the coordinator returns: a reference to the operation
already in flight, or a promise that settles with a Result. -/
inductive RenewResult (ε : Type) where
  | joined (op : Nat)
  | settled (r : RResult Bool ε)
deriving DecidableEq

/-- Observable effects of one coordinator run: how many times the physical
renewal (the injected callback, resp. the refresh POST) was invoked, and
whether clearTokens was invoked. -/
structure RenewEffects where
  renewalCalls : Nat
  clearCalled : Bool
deriving DecidableEq

/-- refreshTokensWithCallback (tokenManager.ts lines 128-160), run to
settlement.  `opId` identifies the promise this call would create; `cb`
is the outcome the injected callback settles with; `persistFails` is
whether the setTokens persistence writes reject.  Paths:
memoized-promise reuse (132-134), falsy refresh token (136-138), callback
Ok then setTokens (144-146), callback Err then clearTokens (147-150),
callback throw then clearTokens (151-153), and the finally that nulls
refreshPromise (154-156). -/
def TokenManager.refreshTokensWithCallbackRun (s : TokenManager) (p : Persisted)
    (cb : CbOutcome) (persistFails : Bool) (opId : Nat) :
    RenewResult AppErr × TokenManager × Persisted × RenewEffects :=
  match s.refreshPromise with
  | some op => (.joined op, s, p, ⟨0, false⟩)
  | none =>
    if !(strTruthy s.refreshToken) then
      (.settled (.Err .TOKEN_NOT_FOUND), s, p, ⟨0, false⟩)
    else
      let s1 : TokenManager := { s with refreshPromise := some opId }
      match cb with
      | .ok t =>
        match s1.setTokensRun p t persistFails with
        | (.Ok _, s2, p2) =>
          (.settled (.Ok true), { s2 with refreshPromise := none }, p2, ⟨1, false⟩)
        | (.Err e, s2, p2) =>
          (.settled (.Err e), { s2 with refreshPromise := none }, p2, ⟨1, false⟩)
      | .err e =>
        let (s2, p2) := s1.clearTokensRun p
        (.settled (.Err e), { s2 with refreshPromise := none }, p2, ⟨1, true⟩)
      | .exn =>
        let (s2, p2) := s1.clearTokensRun p
        (.settled (.Err .TOKEN_REFRESH_FAILED), { s2 with refreshPromise := none },
         p2, ⟨1, true⟩)

/-! ### The synchronous entry of the coordinator, for concurrent bursts

`refreshTokensWithCallback` is synchronous from its start to the `await`
inside the memoized async body: the promise check (line 132), the token
check (line 136), the assignment of the new promise (line 140) and the
invocation of `refreshCallback` (line 142) all happen in one atomic step
of the cooperative scheduler.  N calls in the same scheduling tick are N
successive such steps with no settlement in between. -/

/-- What one synchronous entry into refreshTokensWithCallback does. -/
inductive RenewEntry where
  | joined (op : Nat)
  | noToken
  | started (op : Nat)
deriving DecidableEq

/-- `started` entries are exactly the entries that synchronously invoke
the physical renewal callback (line 142). -/
def RenewEntry.isStarted : RenewEntry → Bool
  | .started _ => true
  | _ => false

/-- The operation a caller ends up referencing (and whose settlement it
will resolve with), if any. -/
def RenewEntry.opRef : RenewEntry → Option Nat
  | .joined op => some op
  | .started op => some op
  | .noToken => none

/-- One synchronous entry into refreshTokensWithCallback (lines 132-142):
reuse the memoized promise, fail on a falsy refresh token, or record a
new in-flight promise and invoke the callback. -/
def TokenManager.renewEntry (s : TokenManager) (fresh : Nat) :
    RenewEntry × TokenManager :=
  match s.refreshPromise with
  | some op => (.joined op, s)
  | none =>
    if !(strTruthy s.refreshToken) then (.noToken, s)
    else (.started fresh, { s with refreshPromise := some fresh })

/-- `n` concurrent entries into refreshTokensWithCallback in one
scheduling tick (no settlement in between). -/
def TokenManager.renewBurst (s : TokenManager) (fresh : Nat) :
    Nat → List RenewEntry × TokenManager
  | 0 => ([], s)
  | n + 1 =>
    let (e, s1) := s.renewEntry fresh
    let (es, s2) := s1.renewBurst fresh n
    (e :: es, s2)

/-! ### The zustand token store (typescript/tokenStore.ts) -/

/-- TokenError type tags of tokenStore.ts lines 10-14 (messages elided:
no claim distinguishes two errors of the same type). -/
inductive TokenErrType where
  | STORAGE_ERROR
  | NOT_FOUND
  | REFRESH_FAILED
deriving DecidableEq

/-- TokenState of tokenStore.ts lines 22-35.  `refreshPromise` holds the
identifier of the promise object stored in the slot (in the source a
settled promise can remain stored, so this is not always an in-flight
operation); `hasApiClient` is whether `apiClient` is non-null;
`proactiveRefreshInterval` is whether the recurring timer is set. -/
structure TokenStore where
  accessToken : Option String
  refreshToken : Option String
  accessTokenExpiresAt : Option JSDate
  refreshTokenExpiresAt : Option JSDate
  isTokenInitialized : Bool
  isRefreshing : Bool
  hasApiClient : Bool
  refreshPromise : Option Nat
  lastRefreshTime : Option Int
  proactiveRefreshInterval : Bool
  lastExpiryCheckTime : Option Int
  lastExpiryCheckResult : Option Bool
deriving DecidableEq

/-- The store's creation state (tokenStore.ts lines 59-70) with an api
client attached via setApiClient. -/
def TokenStore.initial : TokenStore :=
  { accessToken := none, refreshToken := none, accessTokenExpiresAt := none
    refreshTokenExpiresAt := none, isTokenInitialized := false, isRefreshing := false
    hasApiClient := true, refreshPromise := none, lastRefreshTime := none
    proactiveRefreshInterval := false, lastExpiryCheckTime := none
    lastExpiryCheckResult := none }

/-- setTokens of tokenStore.ts lines 101-126: persist the four fields,
commit them to memory, then startProactiveRefresh (which sets the
recurring timer).  On a persistence rejection `wrapAsync` catches:
memory untouched, STORAGE_ERROR returned. -/
def TokenStore.setTokensRun (s : TokenStore) (st : Persisted) (t : Token)
    (persistFails : Bool) : RResult Unit TokenErrType × TokenStore × Persisted :=
  if persistFails then (.Err .STORAGE_ERROR, s, st)
  else
    (.Ok (),
     { s with accessToken := some t.accessToken, refreshToken := some t.refreshToken
              accessTokenExpiresAt := some t.accessTokenExpiresAt
              refreshTokenExpiresAt := some t.refreshTokenExpiresAt
              proactiveRefreshInterval := true },
     { accessToken := some t.accessToken, refreshToken := some t.refreshToken
       accessTokenExpiresAt := some t.accessTokenExpiresAt
       refreshTokenExpiresAt := some t.refreshTokenExpiresAt })

/-- clearTokens of tokenStore.ts lines 128-158: delete the four persisted
keys, cancel the proactive timer and null out every mutable field except
`isTokenInitialized`. -/
def TokenStore.clearTokensRun (s : TokenStore) (st : Persisted) :
    TokenStore × Persisted :=
  ({ s with accessToken := none, refreshToken := none, accessTokenExpiresAt := none
            refreshTokenExpiresAt := none, isRefreshing := false
            refreshPromise := none, lastRefreshTime := none
            proactiveRefreshInterval := false, lastExpiryCheckTime := none
            lastExpiryCheckResult := none },
   { st with accessToken := none, refreshToken := none, accessTokenExpiresAt := none
             refreshTokenExpiresAt := none })

/-- The 1-second result-cache guard of isAccessTokenExpiringSoon
(tokenStore.ts line 165): `lastExpiryCheckTime` truthy (non-null and
non-zero), less than 1000 ms old, and a cached result present. -/
def TokenStore.cacheHit (s : TokenStore) (now : Int) : Bool :=
  match s.lastExpiryCheckTime, s.lastExpiryCheckResult with
  | some t, some _ => if t = 0 then false else decide (now - t < 1000)
  | _, _ => false

/-- isAccessTokenExpiringSoon of tokenStore.ts lines 160-190: return the
cached result when the cache guard holds; else false (and cache it) on a
falsy expiry field; else compute `now >= expiry - minutes*60*1000` and
cache it.  The catch branch (186-189) is unreachable: Date arithmetic
does not throw. -/
def TokenStore.isAccessTokenExpiringSoonRun (s : TokenStore) (now : Int)
    (minutesBeforeExpiry : Int) : Bool × TokenStore :=
  if s.cacheHit now then (s.lastExpiryCheckResult.getD false, s)
  else
    match s.accessTokenExpiresAt with
    | none =>
      (false, { s with lastExpiryCheckTime := some now
                       lastExpiryCheckResult := some false })
    | some d =>
      let isExpiring := jsGeNow now (jsSubMs d (minutesBeforeExpiry * 60 * 1000))
      (isExpiring, { s with lastExpiryCheckTime := some now
                            lastExpiryCheckResult := some isExpiring })

/-- Outcome of the refresh POST issued through wrapApiCall (tokenStore.ts
lines 269-273): a new pair, a business/HTTP error, or a thrown
exception. -/
inductive ApiOutcome where
  | ok (t : Token)
  | err
  | exn
deriving DecidableEq

/-- refreshTokens of tokenStore.ts lines 246-302, run to settlement.
The async body returns before entering its try/finally on a falsy
refresh token (line 258) and on a missing api client (line 262); in the
source the store then still records the (already settled) promise in
`refreshPromise` (line 299), which the finally of those paths never
clears.  The main path sets isRefreshing, awaits the POST, and either
persists the new pair and records lastRefreshTime, or clears all tokens;
its finally resets isRefreshing and refreshPromise. -/
def TokenStore.refreshTokensRun (s : TokenStore) (st : Persisted)
    (api : ApiOutcome) (persistFails : Bool) (now : Int) (opId : Nat) :
    RenewResult TokenErrType × TokenStore × Persisted × RenewEffects :=
  match s.refreshPromise with
  | some op => (.joined op, s, st, ⟨0, false⟩)
  | none =>
    if !(strTruthy s.refreshToken) then
      (.settled (.Err .NOT_FOUND), { s with refreshPromise := some opId }, st,
       ⟨0, false⟩)
    else if !s.hasApiClient then
      (.settled (.Err .REFRESH_FAILED), { s with refreshPromise := some opId }, st,
       ⟨0, false⟩)
    else
      let s1 : TokenStore := { s with isRefreshing := true, refreshPromise := some opId }
      match api with
      | .ok t =>
        match s1.setTokensRun st t persistFails with
        | (.Err _, s2, st2) =>
          (.settled (.Err .STORAGE_ERROR),
           { s2 with isRefreshing := false, refreshPromise := none }, st2, ⟨1, false⟩)
        | (.Ok _, s2, st2) =>
          (.settled (.Ok true),
           { s2 with lastRefreshTime := some now, isRefreshing := false
                     refreshPromise := none }, st2, ⟨1, false⟩)
      | .err =>
        let (s2, st2) := s1.clearTokensRun st
        (.settled (.Err .REFRESH_FAILED),
         { s2 with isRefreshing := false, refreshPromise := none }, st2, ⟨1, true⟩)
      | .exn =>
        let (s2, st2) := s1.clearTokensRun st
        (.settled (.Err .REFRESH_FAILED),
         { s2 with isRefreshing := false, refreshPromise := none }, st2, ⟨1, true⟩)

/-! #### The synchronous entry of refreshTokens, for concurrent bursts

`refreshTokens` of tokenStore.ts is synchronous from its start to the
first `await` of the async body it creates: the memoized-promise check
(line 250), the body's refresh-token and api-client checks (lines
258-264), the `isRefreshing` set (line 266), the issue of the refresh
POST (line 270) and the store of the promise into `refreshPromise`
(line 299) all happen in one atomic step of the cooperative scheduler.
N calls in the same scheduling tick are N successive such steps with no
settlement in between. -/

/-- What one synchronous entry into refreshTokens does.  In every case
the caller ends up holding promise `op`: `joined` returns the promise
already stored, `settledErr` creates a promise that is already settled
with an Err before line 299 stores it (falsy refresh token or missing
api client), `started` issues the physical refresh POST and stores the
pending promise. -/
inductive StoreRenewEntry where
  | joined (op : Nat)
  | settledErr (op : Nat)
  | started (op : Nat)
deriving DecidableEq

/-- `started` entries are exactly the entries that synchronously issue
the physical refresh POST (tokenStore.ts line 270). -/
def StoreRenewEntry.isStarted : StoreRenewEntry → Bool
  | .started _ => true
  | _ => false

/-- The promise a caller ends up referencing (and whose settlement it
will resolve with). -/
def StoreRenewEntry.opRef : StoreRenewEntry → Option Nat
  | .joined op => some op
  | .settledErr op => some op
  | .started op => some op

/-- One synchronous entry into refreshTokens (tokenStore.ts lines
246-302, up to the first await): reuse the stored promise; or create the
promise — already settled with Err on a falsy refresh token or a missing
api client, pending with the POST issued otherwise — and store it in
`refreshPromise` (line 299). -/
def TokenStore.renewEntry (s : TokenStore) (fresh : Nat) :
    StoreRenewEntry × TokenStore :=
  match s.refreshPromise with
  | some op => (.joined op, s)
  | none =>
    if !(strTruthy s.refreshToken) then
      (.settledErr fresh, { s with refreshPromise := some fresh })
    else if !s.hasApiClient then
      (.settledErr fresh, { s with refreshPromise := some fresh })
    else
      (.started fresh, { s with isRefreshing := true, refreshPromise := some fresh })

/-- `n` concurrent entries into refreshTokens in one scheduling tick (no
settlement in between). -/
def TokenStore.renewBurst (s : TokenStore) (fresh : Nat) :
    Nat → List StoreRenewEntry × TokenStore
  | 0 => ([], s)
  | n + 1 =>
    let (e, s1) := s.renewEntry fresh
    let (es, s2) := s1.renewBurst fresh n
    (e :: es, s2)

/-- The 30-second renewal throttle of checkAndRefreshIfNeeded
(tokenStore.ts line 202): `lastRefreshTime` truthy and less than
30000 ms old. -/
def TokenStore.recentRefresh (s : TokenStore) (now : Int) : Bool :=
  match s.lastRefreshTime with
  | none => false
  | some t => if t = 0 then false else decide (now - t < 30000)

/-- Effects of one checkAndRefreshIfNeeded run: whether the expiry
evaluator ran and whether refreshTokens was entered. -/
structure CheckEffects where
  expiryEvaluated : Bool
  refreshTokensCalled : Bool
deriving DecidableEq

/-- checkAndRefreshIfNeeded of tokenStore.ts lines 192-214: reuse an
in-flight promise; else Ok(true) within 30 s of the last renewal; else
evaluate expiry, Ok(true) when not expiring, otherwise run
refreshTokens. -/
def TokenStore.checkAndRefreshIfNeededRun (s : TokenStore) (st : Persisted)
    (api : ApiOutcome) (persistFails : Bool) (now : Int) (opId : Nat) :
    RenewResult TokenErrType × TokenStore × Persisted × CheckEffects :=
  match s.refreshPromise with
  | some op => (.joined op, s, st, ⟨false, false⟩)
  | none =>
    if s.recentRefresh now then (.settled (.Ok true), s, st, ⟨false, false⟩)
    else
      let (isExpiringSoon, s1) := s.isAccessTokenExpiringSoonRun now 10
      if !isExpiringSoon then (.settled (.Ok true), s1, st, ⟨true, false⟩)
      else
        let (r, s2, st2, _) := s1.refreshTokensRun st api persistFails now opId
        (r, s2, st2, ⟨true, true⟩)

/-! ### The retry module (util/retry.ts, src/unnamed/part_003 and part_010) -/

/-- ErrorCodes of types/errors.ts (src/unnamed/part_008), restricted to
the codes mapHttpStatusToErrorCode can produce. -/
inductive ErrCode where
  | DATA_VALIDATION_FAILED
  | AUTH_TOKEN_INVALID
  | AUTH_PERMISSION_DENIED
  | DATA_NOT_FOUND
  | FILE_TOO_LARGE
  | SERVER_ERROR
  | NETWORK_ERROR
deriving DecidableEq

/-- mapHttpStatusToErrorCode of src/unnamed/part_008: the statusMap
entries, any other status falling back to SERVER_ERROR. -/
def mapHttpStatusToErrorCode (statusCode : Nat) : ErrCode :=
  if statusCode = 400 then .DATA_VALIDATION_FAILED
  else if statusCode = 401 then .AUTH_TOKEN_INVALID
  else if statusCode = 403 then .AUTH_PERMISSION_DENIED
  else if statusCode = 404 then .DATA_NOT_FOUND
  else if statusCode = 413 then .FILE_TOO_LARGE
  else if statusCode = 500 then .SERVER_ERROR
  else if statusCode = 502 then .SERVER_ERROR
  else .SERVER_ERROR

/-- ErrorCheckers.isRetryableError (typescript/errorHandler.ts lines
103-107): only NETWORK_ERROR and SERVER_ERROR qualify. -/
def isRetryableError (code : ErrCode) : Bool :=
  code = .NETWORK_ERROR || code = .SERVER_ERROR

/-- RetryState of the retry module: attempt counter and configured
bounds (the delay feeds only the backoff sleep, which is not modelled). -/
structure RetryState where
  attempt : Nat
  maxAttempts : Nat
  delay : Nat
deriving DecidableEq

/-- The retryStates map, keyed by the request id string. -/
abbrev Ledger := List (String × RetryState)

/-- Map.get of the retry ledger. -/
def ledgerGet : Ledger → String → Option RetryState
  | [], _ => none
  | (k, v) :: rest, key => if k = key then some v else ledgerGet rest key

/-- Map.delete of the retry ledger. -/
def ledgerErase (l : Ledger) (key : String) : Ledger :=
  l.filter (fun p => !(p.1 = key : Bool))

/-- Map.set of the retry ledger. -/
def ledgerSet (l : Ledger) (key : String) (v : RetryState) : Ledger :=
  (key, v) :: ledgerErase l key

/-- The request id of the retry module: METHOD ++ "_" ++ url (the method
is modelled as already upper-cased). -/
def requestId (method url : String) : String := method ++ "_" ++ url

/-- retryRequest (src/unnamed/part_003 lines 13-65; part_010 is the same
ledger logic): look up or initialize the key's RetryState; when attempts
reached maxAttempts, delete the entry and refuse; when the error is not
retryable (the code of a response error is mapHttpStatusToErrorCode of
its status, a missing response is NETWORK_ERROR), delete the entry and
refuse; otherwise sleep the exponential backoff with jitter (timing not
modelled), increment the attempt counter and authorize the retry. -/
def retryRequest (ledger : Ledger) (method url : String) (status : Option Nat)
    (cfgMaxAttempts cfgDelay : Nat) : Bool × Ledger :=
  let rid := requestId method url
  let retryState :=
    match ledgerGet ledger rid with
    | some rs => rs
    | none => ⟨0, cfgMaxAttempts, cfgDelay⟩
  if retryState.maxAttempts ≤ retryState.attempt then (false, ledgerErase ledger rid)
  else
    let code :=
      match status with
      | some sc => mapHttpStatusToErrorCode sc
      | none => ErrCode.NETWORK_ERROR
    if !(isRetryableError code) then (false, ledgerErase ledger rid)
    else (true, ledgerSet ledger rid { retryState with attempt := retryState.attempt + 1 })

/-- The response-success interceptor (apiClient.ts line 137) only unwraps
`response.data`; neither it nor any other code of the repository removes
a retryStates entry on success, so its effect on the ledger is the
identity. -/
def onResponseSuccessLedger (l : Ledger) : Ledger := l

/-! ### The api client interceptors (sharedAPI/src/shared/api/apiClient.ts) -/

/-- Naive substring test over character lists (String.includes). -/
def charsInclude : List Char → List Char → Bool
  | s, pat =>
    match s with
    | [] => pat.isEmpty
    | _ :: rest => pat.isPrefixOf s || charsInclude rest pat

/-- JS `s.includes(pat)`. -/
def strIncludes (s pat : String) : Bool := charsInclude s.data pat.data

/-- A request as the response interceptor sees it: its url, the
per-request `_retry` marker, and its Authorization header value. -/
structure Req where
  url : String
  retried : Bool
  auth : Option String
deriving DecidableEq

/-- apiClient.ts line 146: whether the failed request is the renewal
endpoint itself. -/
def Req.isRefreshRequest (r : Req) : Bool := strIncludes r.url "/api/auth/refresh"

/-- What the 401 branch of the response interceptor does with the failed
request. -/
inductive A401 where
  | unauthenticatedReject
  | resend (r : Req)
deriving DecidableEq

/-- The 401 branch of the response interceptor (apiClient.ts lines
142-180): a 401 on the refresh endpoint itself goes straight to
unauthenticated (149-154); an already-retried request goes straight to
unauthenticated (157-160); otherwise the `_retry` marker is set (163),
the coordinator renews, and on success the new access token is attached
(when truthy) and the request is resent (168-175), while on renewal
failure the pipeline goes to unauthenticated (178-179).
`unauthenticatedReject` stands for `handleUnauthorized()` followed by
rejecting the error. -/
def on401 (r : Req) (refreshResult : RResult Bool AppErr) (newToken : Option String) :
    A401 :=
  if r.isRefreshRequest then .unauthenticatedReject
  else if r.retried then .unauthenticatedReject
  else
    let r1 : Req := { r with retried := true }
    match refreshResult with
    | .Ok _ => .resend (if strTruthy newToken then { r1 with auth := newToken } else r1)
    | .Err _ => .unauthenticatedReject

/-- What the whole response-error interceptor does. -/
inductive RespAction where
  | unauthenticatedReject
  | resend (r : Req)
  | retryResend
  | reject
deriving DecidableEq

/-- The response-error interceptor of apiClient.ts lines 138-192: the 401
branch, then the 5xx branch delegating to retryRequest, then plain
rejection. -/
def onResponseErrorRun (r : Req) (statusCode : Nat)
    (refreshResult : RResult Bool AppErr) (newToken : Option String)
    (ledger : Ledger) (method : String) (cfgMaxAttempts cfgDelay : Nat) :
    RespAction × Ledger :=
  if statusCode = 401 then
    match on401 r refreshResult newToken with
    | .unauthenticatedReject => (.unauthenticatedReject, ledger)
    | .resend r1 => (.resend r1, ledger)
  else if 500 ≤ statusCode ∧ statusCode < 600 then
    let (shouldRetry, l1) := retryRequest ledger method r.url (some statusCode)
      cfgMaxAttempts cfgDelay
    if shouldRetry then (.retryResend, l1) else (.reject, l1)
  else (.reject, ledger)

/-- Resends performed on one request through consecutive 401 responses:
each list element is the (renewal outcome, new token) of one more 401 on
the request as it then stands; a terminal action stops the chain. -/
def resendCount401 : Req → List (RResult Bool AppErr × Option String) → Nat
  | _, [] => 0
  | r, (o, tok) :: rest =>
    match on401 r o tok with
    | .resend r1 => 1 + resendCount401 r1 rest
    | .unauthenticatedReject => 0

/-- The api client's unauthorized-path state: the token manager it owns,
its persistence, the withdrawal-mode gate and whether an unauthorized
callback is registered. -/
structure ApiClientState where
  tm : TokenManager
  persisted : Persisted
  interceptorsDisabled : Bool
  hasUnauthorizedCallback : Bool
deriving DecidableEq

/-- setInterceptorsDisabled (apiClient.ts lines 68-70). -/
def ApiClientState.setInterceptorsDisabled (c : ApiClientState) (disabled : Bool) :
    ApiClientState :=
  { c with interceptorsDisabled := disabled }

/-- Effects of one handleUnauthorized run. -/
structure UnauthEffects where
  clearTokensCalled : Bool
  unauthorizedCallbackInvoked : Bool
deriving DecidableEq

/-- handleUnauthorized (apiClient.ts lines 84-93): a no-op while
interceptors are disabled; otherwise clearTokens, then the registered
callback if any. -/
def ApiClientState.handleUnauthorizedRun (c : ApiClientState) :
    ApiClientState × UnauthEffects :=
  if c.interceptorsDisabled then (c, ⟨false, false⟩)
  else
    let (m2, p2) := c.tm.clearTokensRun c.persisted
    ({ c with tm := m2, persisted := p2 }, ⟨true, c.hasUnauthorizedCallback⟩)

/-- The claim's formula for "access credential expiring soon", written
from the spec's words for comparison with the code: true exactly when
`now >= accessExpiresAt - threshold` minutes, false when the timestamp is
missing or malformed. -/
def specAccessExpiringSoon (accessExp : Option JSDate) (now minutes : Int) : Bool :=
  match accessExp with
  | some (.valid ms) => decide (ms - minutes * 60 * 1000 ≤ now)
  | _ => false

/-! ## Theorems -/

/-- Once an operation is in flight, every further entry in the same tick
joins it and changes nothing. -/
theorem renewBurst_joined (fresh op : Nat) :
    ∀ (n : Nat) (s : TokenManager), s.refreshPromise = some op →
      s.renewBurst fresh n = (List.replicate n (RenewEntry.joined op), s) := by
  intro n
  induction n with
  | zero => intro s _; simp [TokenManager.renewBurst]
  | succ m ih =>
    intro s h
    simp [TokenManager.renewBurst, TokenManager.renewEntry, h, ih s h,
      List.replicate_succ]

/-- Once a promise is stored in the tokenStore slot, every further entry
in the same tick joins it and changes nothing. -/
theorem renewBurstStore_joined (fresh op : Nat) :
    ∀ (n : Nat) (s : TokenStore), s.refreshPromise = some op →
      s.renewBurst fresh n = (List.replicate n (StoreRenewEntry.joined op), s) := by
  intro n
  induction n with
  | zero => intro s _; simp [TokenStore.renewBurst]
  | succ m ih =>
    intro s h
    simp [TokenStore.renewBurst, TokenStore.renewEntry, h, ih s h,
      List.replicate_succ]

/-- C1: For every N >= 1 concurrent calls to the coordinator's renew
operation — refreshTokensWithCallback of tokenManager.ts, and
refreshTokens of tokenStore.ts with its api client attached — issued in
one scheduling tick while no renewal is in flight and a refresh
credential is present, exactly one entry synchronously invokes the
underlying renewal call (the injected callback, resp. the refresh POST),
every entry (the later callers included) receives a reference to that
same single operation rather than starting a second one, and the
in-flight slot holds that operation; all N calls therefore resolve with
the one settlement of that shared operation. -/
theorem C1_single_flight :
    (∀ (s : TokenManager) (fresh n : Nat), s.refreshPromise = none →
      strTruthy s.refreshToken = true → 1 ≤ n →
      (((s.renewBurst fresh n).1.countP RenewEntry.isStarted) = 1) ∧
      (∀ e ∈ (s.renewBurst fresh n).1, e.opRef = some fresh) ∧
      ((s.renewBurst fresh n).2.refreshPromise = some fresh)) ∧
    (∀ (s : TokenStore) (fresh n : Nat), s.refreshPromise = none →
      strTruthy s.refreshToken = true → s.hasApiClient = true → 1 ≤ n →
      (((s.renewBurst fresh n).1.countP StoreRenewEntry.isStarted) = 1) ∧
      (∀ e ∈ (s.renewBurst fresh n).1, e.opRef = some fresh) ∧
      ((s.renewBurst fresh n).2.refreshPromise = some fresh)) := by
  constructor
  · intro s fresh n h0 h1 hn
    obtain ⟨m, rfl⟩ : ∃ m, n = m + 1 := ⟨n - 1, (Nat.succ_pred_eq_of_pos hn).symm⟩
    have hstep : s.renewEntry fresh =
        (.started fresh, { s with refreshPromise := some fresh }) := by
      simp [TokenManager.renewEntry, h0, h1]
    have hrest := renewBurst_joined fresh fresh m
      { s with refreshPromise := some fresh } rfl
    have hburst : s.renewBurst fresh (m + 1) =
        (RenewEntry.started fresh :: List.replicate m (RenewEntry.joined fresh),
         { s with refreshPromise := some fresh }) := by
      simp [TokenManager.renewBurst, hstep, hrest]
    refine ⟨?_, ?_, ?_⟩
    · rw [hburst]
      simp only [List.countP_cons_of_pos _ _ (by rfl : RenewEntry.isStarted
        (RenewEntry.started fresh) = true)]
      have : (List.replicate m (RenewEntry.joined fresh)).countP
          RenewEntry.isStarted = 0 := by
        rw [List.countP_eq_zero]
        intro a ha
        rw [List.eq_of_mem_replicate ha]
        simp [RenewEntry.isStarted]
      omega
    · rw [hburst]
      intro e he
      rcases List.mem_cons.mp he with rfl | he2
      · rfl
      · rw [List.eq_of_mem_replicate he2]; rfl
    · rw [hburst]
  · intro s fresh n h0 h1 h2 hn
    obtain ⟨m, rfl⟩ : ∃ m, n = m + 1 := ⟨n - 1, (Nat.succ_pred_eq_of_pos hn).symm⟩
    have hstep : s.renewEntry fresh = (.started fresh,
        { s with isRefreshing := true, refreshPromise := some fresh }) := by
      simp [TokenStore.renewEntry, h0, h1, h2]
    have hrest := renewBurstStore_joined fresh fresh m
      { s with isRefreshing := true, refreshPromise := some fresh } rfl
    have hburst : s.renewBurst fresh (m + 1) =
        (StoreRenewEntry.started fresh ::
           List.replicate m (StoreRenewEntry.joined fresh),
         { s with isRefreshing := true, refreshPromise := some fresh }) := by
      simp [TokenStore.renewBurst, hstep, hrest]
    refine ⟨?_, ?_, ?_⟩
    · rw [hburst]
      simp only [List.countP_cons_of_pos _ _ (by rfl : StoreRenewEntry.isStarted
        (StoreRenewEntry.started fresh) = true)]
      have : (List.replicate m (StoreRenewEntry.joined fresh)).countP
          StoreRenewEntry.isStarted = 0 := by
        rw [List.countP_eq_zero]
        intro a ha
        rw [List.eq_of_mem_replicate ha]
        simp [StoreRenewEntry.isStarted]
      omega
    · rw [hburst]
      intro e he
      rcases List.mem_cons.mp he with rfl | he2
      · rfl
      · rw [List.eq_of_mem_replicate he2]; rfl
    · rw [hburst]

/-- C1 witness: two-caller bursts from quiescent states with a refresh
credential, one per coordinator variant. -/
theorem C1_single_flight_witness :
    (({ TokenManager.empty with refreshToken := some "rt"
      } : TokenManager).refreshPromise = none ∧
     ((({ TokenManager.empty with refreshToken := some "rt"
        } : TokenManager).renewBurst 5 2).1.countP RenewEntry.isStarted = 1)) ∧
    (({ TokenStore.initial with refreshToken := some "rt"
      } : TokenStore).refreshPromise = none ∧
     ({ TokenStore.initial with refreshToken := some "rt"
      } : TokenStore).hasApiClient = true ∧
     ((({ TokenStore.initial with refreshToken := some "rt"
        } : TokenStore).renewBurst 5 2).1.countP StoreRenewEntry.isStarted = 1)) :=
  ⟨⟨rfl,
    (C1_single_flight.1 { TokenManager.empty with refreshToken := some "rt" } 5 2
      rfl (by decide) (by decide)).1⟩,
   ⟨rfl, rfl,
    (C1_single_flight.2 { TokenStore.initial with refreshToken := some "rt" } 5 2
      rfl (by decide) rfl (by decide)).1⟩⟩

/-- C2: the claim says the in-flight-operation reference is null once the
renew operation has settled, on every settlement path including the
no-refresh-credential path.  Evaluating refreshTokens of tokenStore.ts at
a store with no refresh credential and no renewal in flight: the async
body settles with Err NOT_FOUND before entering its try/finally, yet the
store then records that settled promise in refreshPromise and nothing
ever clears it — the reference is not null after settlement, and a later
refreshTokens call joins the dead promise instead of starting a new
physical renewal. -/
theorem C2_refresh_promise_stuck :
    (TokenStore.initial.refreshTokensRun .empty .err false 1000 7).1 =
      .settled (.Err .NOT_FOUND) ∧
    (TokenStore.initial.refreshTokensRun .empty .err false 1000 7).2.1.refreshPromise
      = some 7 ∧
    ((TokenStore.initial.refreshTokensRun .empty .err false 1000 7).2.1.refreshTokensRun
        .empty .err false 2000 8).1 = .joined 7 := by
  decide

/-- C3: the claim says a renew call with no refresh credential present
(and none in flight) returns NotFound immediately, with no side effects —
in-memory credential fields, persisted fields and the in-flight reference
all unchanged — and never invokes the renewal callback.  Evaluating
refreshTokens of tokenStore.ts at such a store: the result is Err
NOT_FOUND, the credential fields and persistence are untouched and the
physical renewal is never issued, but the in-flight reference does change
(from none to the settled promise), contradicting the no-side-effects
clause. -/
theorem C3_notfound_side_effect :
    (TokenStore.initial.refreshTokensRun .empty .err false 1000 7).1 =
      .settled (.Err .NOT_FOUND) ∧
    (TokenStore.initial.refreshTokensRun .empty .err false 1000 7).2.1.accessToken
      = none ∧
    (TokenStore.initial.refreshTokensRun .empty .err false 1000 7).2.1.refreshToken
      = none ∧
    (TokenStore.initial.refreshTokensRun .empty .err false 1000 7).2.2.1 =
      Persisted.empty ∧
    (TokenStore.initial.refreshTokensRun .empty .err false 1000 7).2.2.2.renewalCalls
      = 0 ∧
    ¬ ((TokenStore.initial.refreshTokensRun .empty .err false 1000 7).2.1.refreshPromise
      = TokenStore.initial.refreshPromise) := by
  decide

/-- C4 counterexample: a renew execution whose callback succeeds but whose
persistence write fails settles with the storage error, yet credential
state is not cleared — clearTokens is never invoked and the old refresh
token is still in memory — contradicting the claim that every
StorageError execution collapses to a full credential clear. -/
theorem C4_counterexample :
    (({ TokenManager.empty with refreshToken := some "rt", accessToken := some "at"
      } : TokenManager).refreshTokensWithCallbackRun Persisted.empty
        (.ok ⟨"na", "nr", .valid 10, .valid 20⟩) true 7).1 =
      .settled (.Err .UNKNOWN_ERROR) ∧
    (({ TokenManager.empty with refreshToken := some "rt", accessToken := some "at"
      } : TokenManager).refreshTokensWithCallbackRun Persisted.empty
        (.ok ⟨"na", "nr", .valid 10, .valid 20⟩) true 7).2.2.2.clearCalled = false ∧
    (({ TokenManager.empty with refreshToken := some "rt", accessToken := some "at"
      } : TokenManager).refreshTokensWithCallbackRun Persisted.empty
        (.ok ⟨"na", "nr", .valid 10, .valid 20⟩) true 7).2.1.refreshToken
      = some "rt" := by
  decide

/-- C4 amended: in both coordinator variants, for a renew execution
started with a refresh credential present and none in flight (the store
variant with its api client attached), every path ending in a
RenewalFailedError — the renewal call settles with a business rejection
or throws (rejects, times out) — invokes the full credential clear and
propagates the failure to the caller; the path where the renewal call
succeeds but persisting the new pair fails propagates the storage error
to the caller WITHOUT clearing: clearTokens is not invoked and the
in-memory credential fields keep their previous values. -/
theorem C4_amended :
    (∀ (s : TokenManager) (p : Persisted) (opId : Nat),
      s.refreshPromise = none → strTruthy s.refreshToken = true →
      (∀ e, (s.refreshTokensWithCallbackRun p (.err e) false opId).1 =
          .settled (.Err e) ∧
        (s.refreshTokensWithCallbackRun p (.err e) false opId).2.2.2.clearCalled
          = true ∧
        (s.refreshTokensWithCallbackRun p (.err e) false opId).2.1.accessToken
          = none ∧
        (s.refreshTokensWithCallbackRun p (.err e) false opId).2.1.refreshToken
          = none ∧
        (s.refreshTokensWithCallbackRun p (.err e) false opId).2.2.1 =
          Persisted.empty) ∧
      ((s.refreshTokensWithCallbackRun p .exn false opId).1 =
          .settled (.Err .TOKEN_REFRESH_FAILED) ∧
        (s.refreshTokensWithCallbackRun p .exn false opId).2.2.2.clearCalled
          = true ∧
        (s.refreshTokensWithCallbackRun p .exn false opId).2.1.accessToken = none ∧
        (s.refreshTokensWithCallbackRun p .exn false opId).2.1.refreshToken = none ∧
        (s.refreshTokensWithCallbackRun p .exn false opId).2.2.1 =
          Persisted.empty) ∧
      (∀ t, (s.refreshTokensWithCallbackRun p (.ok t) true opId).1 =
          .settled (.Err .UNKNOWN_ERROR) ∧
        (s.refreshTokensWithCallbackRun p (.ok t) true opId).2.2.2.clearCalled
          = false ∧
        (s.refreshTokensWithCallbackRun p (.ok t) true opId).2.1.accessToken =
          s.accessToken ∧
        (s.refreshTokensWithCallbackRun p (.ok t) true opId).2.1.refreshToken =
          s.refreshToken)) ∧
    (∀ (s : TokenStore) (st : Persisted) (now : Int) (opId : Nat),
      s.refreshPromise = none → strTruthy s.refreshToken = true →
      s.hasApiClient = true →
      ((s.refreshTokensRun st .err false now opId).1 =
          .settled (.Err .REFRESH_FAILED) ∧
        (s.refreshTokensRun st .err false now opId).2.2.2.clearCalled = true ∧
        (s.refreshTokensRun st .err false now opId).2.1.accessToken = none ∧
        (s.refreshTokensRun st .err false now opId).2.1.refreshToken = none ∧
        (s.refreshTokensRun st .err false now opId).2.2.1 = Persisted.empty) ∧
      ((s.refreshTokensRun st .exn false now opId).1 =
          .settled (.Err .REFRESH_FAILED) ∧
        (s.refreshTokensRun st .exn false now opId).2.2.2.clearCalled = true ∧
        (s.refreshTokensRun st .exn false now opId).2.1.accessToken = none ∧
        (s.refreshTokensRun st .exn false now opId).2.1.refreshToken = none ∧
        (s.refreshTokensRun st .exn false now opId).2.2.1 = Persisted.empty) ∧
      (∀ t, (s.refreshTokensRun st (.ok t) true now opId).1 =
          .settled (.Err .STORAGE_ERROR) ∧
        (s.refreshTokensRun st (.ok t) true now opId).2.2.2.clearCalled = false ∧
        (s.refreshTokensRun st (.ok t) true now opId).2.1.accessToken =
          s.accessToken ∧
        (s.refreshTokensRun st (.ok t) true now opId).2.1.refreshToken =
          s.refreshToken)) := by
  constructor
  · intro s p opId h0 h1
    refine ⟨fun e => ?_, ?_, fun t => ?_⟩ <;>
      simp [TokenManager.refreshTokensWithCallbackRun, h0, h1,
        TokenManager.setTokensRun, TokenManager.clearTokensRun, Persisted.empty]
  · intro s st now opId h0 h1 h2
    refine ⟨?_, ?_, fun t => ?_⟩ <;>
      simp [TokenStore.refreshTokensRun, h0, h1, h2,
        TokenStore.setTokensRun, TokenStore.clearTokensRun, Persisted.empty]

/-- C4 amended witness: a concrete business rejection clears and
propagates, in each variant. -/
theorem C4_amended_witness :
    (({ TokenManager.empty with refreshToken := some "rt"
      } : TokenManager).refreshPromise = none ∧
     (({ TokenManager.empty with refreshToken := some "rt"
       } : TokenManager).refreshTokensWithCallbackRun Persisted.empty
         (.err (.business 3)) false 9).2.2.2.clearCalled = true) ∧
    (({ TokenStore.initial with refreshToken := some "rt"
      } : TokenStore).refreshPromise = none ∧
     (({ TokenStore.initial with refreshToken := some "rt"
       } : TokenStore).refreshTokensRun Persisted.empty .err false 1000
         9).2.2.2.clearCalled = true) :=
  ⟨⟨rfl,
    ((C4_amended.1 { TokenManager.empty with refreshToken := some "rt" }
       Persisted.empty 9 rfl (by decide)).1 (.business 3)).2.1⟩,
   ⟨rfl,
    (C4_amended.2 { TokenStore.initial with refreshToken := some "rt" }
       Persisted.empty 1000 9 rfl (by decide) rfl).1.2.1⟩⟩

/-- A request that already carries the `_retry` marker is never resent by
the 401 branch, whatever the renewal outcome. -/
theorem on401_retried (r : Req) (o : RResult Bool AppErr) (tok : Option String)
    (h : r.retried = true) : on401 r o tok = .unauthenticatedReject := by
  unfold on401
  by_cases hr : r.isRefreshRequest <;> simp [hr, h]

/-- When the 401 branch resends, the resent request carries the `_retry`
marker. -/
theorem on401_resend_retried (r : Req) (o : RResult Bool AppErr)
    (tok : Option String) (r1 : Req) (h : on401 r o tok = .resend r1) :
    r1.retried = true := by
  unfold on401 at h
  split at h
  · exact absurd h (by simp)
  · split at h
    · exact absurd h (by simp)
    · cases o with
      | Err e => exact absurd h (by simp)
      | Ok b =>
        simp only [A401.resend.injEq] at h
        subst h
        by_cases ht : strTruthy tok = true <;> simp [ht]

/-- No chain of 401 responses makes the pipeline resend one request more
than once. -/
theorem resendCount401_le_one (r : Req)
    (os : List (RResult Bool AppErr × Option String)) :
    resendCount401 r os ≤ 1 := by
  cases os with
  | nil => simp [resendCount401]
  | cons head rest =>
    obtain ⟨o, tok⟩ := head
    cases hact : on401 r o tok with
    | unauthenticatedReject => simp [resendCount401, hact]
    | resend r1 =>
      have h1 : r1.retried = true := on401_resend_retried r o tok r1 hact
      cases rest with
      | nil => simp [resendCount401, hact]
      | cons h2 t2 =>
        obtain ⟨o2, tok2⟩ := h2
        simp [resendCount401, hact, on401_retried r1 o2 tok2 h1]

/-- C5: on a 401 response, a failed request that is the renewal endpoint
itself goes directly to unauthenticated with no resend; a request already
carrying the per-request retried marker goes directly to unauthenticated;
otherwise the pipeline sets the marker, renews, and on success resends
the original request exactly once with the new credential attached, while
on renewal failure it goes to unauthenticated; and no chain of 401
responses ever resends one request more than once. -/
theorem C5_401_protocol (r : Req) (o : RResult Bool AppErr) (tok : Option String) :
    (r.isRefreshRequest = true → on401 r o tok = .unauthenticatedReject) ∧
    (r.retried = true → on401 r o tok = .unauthenticatedReject) ∧
    (r.isRefreshRequest = false → r.retried = false →
      ((∀ b, o = .Ok b → on401 r o tok =
          .resend (if strTruthy tok = true
            then { r with retried := true, auth := tok }
            else { r with retried := true })) ∧
       (∀ e, o = .Err e → on401 r o tok = .unauthenticatedReject))) ∧
    (∀ os, resendCount401 r os ≤ 1) := by
  refine ⟨fun hr => ?_, fun hm => on401_retried r o tok hm,
    fun hr hm => ⟨fun b hb => ?_, fun e he => ?_⟩,
    fun os => resendCount401_le_one r os⟩
  · simp [on401, hr]
  · subst hb
    by_cases ht : strTruthy tok = true <;> simp [on401, hr, hm, ht]
  · subst he
    simp [on401, hr, hm]

/-- C5 witness: a marked request is terminal; an unmarked, non-refresh
request whose renewal succeeds is resent once with the marker set and the
new credential attached. -/
theorem C5_401_protocol_witness :
    (({ url := "/api/user/me", retried := true, auth := none } : Req).retried
      = true ∧
     on401 { url := "/api/user/me", retried := true, auth := none }
       (.Ok true) (some "t2") = .unauthenticatedReject) ∧
    (({ url := "/api/user/me", retried := false, auth := some "t1" }
        : Req).isRefreshRequest = false ∧
     on401 { url := "/api/user/me", retried := false, auth := some "t1" }
       (.Ok true) (some "t2") =
       .resend { url := "/api/user/me", retried := true, auth := some "t2" }) :=
  ⟨⟨rfl,
    (C5_401_protocol { url := "/api/user/me", retried := true, auth := none }
      (.Ok true) (some "t2")).2.1 rfl⟩,
   ⟨by decide,
    by
      have h := (((C5_401_protocol
        { url := "/api/user/me", retried := false, auth := some "t1" }
        (.Ok true) (some "t2")).2.2.1 (by decide) rfl).1 true rfl)
      simpa using h⟩⟩

/-- C6: initializeRun on persistence whose refresh token is present and
whose refresh-expiry timestamp parses to a time not after `now` clears
all four credential fields from both memory and persistence and reports
refreshTokenExpired = true; when the refresh credential is absent, or
present with an expiry still in the future, it loads the four persisted
fields into memory, leaves persistence untouched and reports
refreshTokenExpired = false. -/
theorem C6_init_refresh_expired (s : TokenManager) (p : Persisted) (now : Int) :
    (∀ ms, strTruthy p.refreshToken = true →
      p.refreshTokenExpiresAt = some (.valid ms) → ms ≤ now →
      (s.initializeRun p now).1 = .Ok true ∧
      (s.initializeRun p now).2.1.accessToken = none ∧
      (s.initializeRun p now).2.1.refreshToken = none ∧
      (s.initializeRun p now).2.1.accessTokenExpiresAt = none ∧
      (s.initializeRun p now).2.1.refreshTokenExpiresAt = none ∧
      (s.initializeRun p now).2.2 = Persisted.empty) ∧
    (∀ ms, (strTruthy p.refreshToken = false ∨
        (p.refreshTokenExpiresAt = some (.valid ms) ∧ now < ms)) →
      (s.initializeRun p now).1 = .Ok false ∧
      (s.initializeRun p now).2.1.accessToken = p.accessToken ∧
      (s.initializeRun p now).2.1.refreshToken = p.refreshToken ∧
      (s.initializeRun p now).2.1.accessTokenExpiresAt = p.accessTokenExpiresAt ∧
      (s.initializeRun p now).2.1.refreshTokenExpiresAt = p.refreshTokenExpiresAt ∧
      (s.initializeRun p now).2.2 = p) := by
  constructor
  · intro ms htok hexp hpast
    have hvalid : TokenManager.isRefreshTokenValid
        { s with accessToken := p.accessToken, refreshToken := p.refreshToken
                 accessTokenExpiresAt := p.accessTokenExpiresAt
                 refreshTokenExpiresAt := p.refreshTokenExpiresAt } now = false := by
      simp [TokenManager.isRefreshTokenValid, hexp, jsLtNow]
      omega
    simp [TokenManager.initializeRun, htok, hvalid, TokenManager.clearTokensRun,
      Persisted.empty]
  · intro ms hcase
    rcases hcase with htok | ⟨hexp, hfut⟩
    · simp [TokenManager.initializeRun, htok]
    · have hvalid : TokenManager.isRefreshTokenValid
          { s with accessToken := p.accessToken, refreshToken := p.refreshToken
                   accessTokenExpiresAt := p.accessTokenExpiresAt
                   refreshTokenExpiresAt := p.refreshTokenExpiresAt } now = true := by
        simp [TokenManager.isRefreshTokenValid, hexp, jsLtNow]
        omega
      simp [TokenManager.initializeRun, hvalid]

/-- C6 witness: an expired persisted refresh credential is cleared and
reported; an unexpired one is loaded and not reported. -/
theorem C6_init_refresh_expired_witness :
    (strTruthy (some "rt") = true ∧
     ((TokenManager.empty.initializeRun
        { accessToken := some "at", refreshToken := some "rt"
          accessTokenExpiresAt := some (.valid 50)
          refreshTokenExpiresAt := some (.valid 100) } 100).1 = .Ok true)) ∧
    ((TokenManager.empty.initializeRun
        { accessToken := some "at", refreshToken := some "rt"
          accessTokenExpiresAt := some (.valid 50)
          refreshTokenExpiresAt := some (.valid 200) } 100).1 = .Ok false) :=
  ⟨⟨by decide,
    ((C6_init_refresh_expired TokenManager.empty
      { accessToken := some "at", refreshToken := some "rt"
        accessTokenExpiresAt := some (.valid 50)
        refreshTokenExpiresAt := some (.valid 100) } 100).1 100 (by decide) rfl
      (by decide)).1⟩,
   ((C6_init_refresh_expired TokenManager.empty
      { accessToken := some "at", refreshToken := some "rt"
        accessTokenExpiresAt := some (.valid 50)
        refreshTokenExpiresAt := some (.valid 200) } 100).2 200
      (Or.inr ⟨rfl, by decide⟩)).1⟩

/-- C7 counterexample: with maxAttempts = 3 and consecutive 503 failures
on one (method, path) key, the THIRD failure still authorizes a retry
(shouldRetry = true) and leaves the ledger entry in place, where the
claim says the third failure is propagated and the entry removed; and a
success for the key (the success interceptor) does not remove the ledger
entry either. -/
theorem C7_counterexample :
    (retryRequest [] "GET" "/x" (some 503) 3 1000).1 = true ∧
    (retryRequest (retryRequest [] "GET" "/x" (some 503) 3 1000).2
      "GET" "/x" (some 503) 3 1000).1 = true ∧
    (retryRequest (retryRequest (retryRequest [] "GET" "/x" (some 503) 3 1000).2
      "GET" "/x" (some 503) 3 1000).2 "GET" "/x" (some 503) 3 1000).1 = true ∧
    ledgerGet (retryRequest (retryRequest (retryRequest []
        "GET" "/x" (some 503) 3 1000).2
      "GET" "/x" (some 503) 3 1000).2 "GET" "/x" (some 503) 3 1000).2
      (requestId "GET" "/x") = some ⟨3, 3, 1000⟩ ∧
    ledgerGet (onResponseSuccessLedger (retryRequest (retryRequest []
        "GET" "/x" (some 503) 3 1000).2 "GET" "/x" (some 503) 3 1000).2)
      (requestId "GET" "/x") = some ⟨2, 3, 1000⟩ := by
  decide

/-- C7 amended: under maxAttempts = 3, each of the first three
consecutive 503 failures of a (method, path) key authorizes a
backoff-and-retry; the FOURTH consecutive failure is propagated to the
caller (shouldRetry = false) and the ledger entry for the key is removed
at that point.  Ledger entries are not removed on success: the response
success path leaves the ledger untouched, and an entry persists until a
later failure exhausts the attempts or carries a non-retryable error. -/
theorem C7_amended :
    (retryRequest [] "GET" "/x" (some 503) 3 1000).1 = true ∧
    (retryRequest (retryRequest [] "GET" "/x" (some 503) 3 1000).2
      "GET" "/x" (some 503) 3 1000).1 = true ∧
    (retryRequest (retryRequest (retryRequest [] "GET" "/x" (some 503) 3 1000).2
      "GET" "/x" (some 503) 3 1000).2 "GET" "/x" (some 503) 3 1000).1 = true ∧
    (retryRequest (retryRequest (retryRequest (retryRequest []
        "GET" "/x" (some 503) 3 1000).2 "GET" "/x" (some 503) 3 1000).2
      "GET" "/x" (some 503) 3 1000).2 "GET" "/x" (some 503) 3 1000).1 = false ∧
    ledgerGet (retryRequest (retryRequest (retryRequest (retryRequest []
        "GET" "/x" (some 503) 3 1000).2 "GET" "/x" (some 503) 3 1000).2
      "GET" "/x" (some 503) 3 1000).2 "GET" "/x" (some 503) 3 1000).2
      (requestId "GET" "/x") = none ∧
    (∀ l : Ledger, onResponseSuccessLedger l = l) := by
  refine ⟨by decide, by decide, by decide, by decide, by decide, fun l => rfl⟩

/-- C8 counterexample: the tokenStore variant of isAccessTokenExpiringSoon
caches its result for 1 second; with a warm cache holding `false` from
500 ms ago it returns false although the access expiry lies in the past
(the claim's formula says true), so the claimed unconditional
"exactly when" equivalence fails on the cited code. -/
theorem C8_counterexample :
    (({ TokenStore.initial with
        accessTokenExpiresAt := some (.valid 0),
        lastExpiryCheckTime := some 999500, lastExpiryCheckResult := some false
      } : TokenStore).isAccessTokenExpiringSoonRun 1000000 10).1 = false ∧
    specAccessExpiringSoon (some (.valid 0)) 1000000 10 = true := by
  decide

/-- C8 amended: the uncached variant (tokenManager.ts) returns true
exactly when `now >= accessExpiresAt - threshold` minutes — in particular
true when the access expiry lies one minute in the past — and false
whenever the timestamp is missing or malformed; the cached variant
(tokenStore.ts) agrees with that formula whenever its 1-second result
cache does not hit (on a cache hit it returns the cached value
unchanged). -/
theorem C8_expiring_soon (now minutes : Int) :
    (∀ s : TokenManager, s.isAccessTokenExpiringSoon now minutes =
      specAccessExpiringSoon s.accessTokenExpiresAt now minutes) ∧
    (∀ s : TokenStore, s.cacheHit now = false →
      (s.isAccessTokenExpiringSoonRun now minutes).1 =
        specAccessExpiringSoon s.accessTokenExpiresAt now minutes) := by
  constructor
  · intro s
    cases h : s.accessTokenExpiresAt with
    | none => simp [TokenManager.isAccessTokenExpiringSoon, h, specAccessExpiringSoon]
    | some d =>
      cases d with
      | valid ms =>
        simp [TokenManager.isAccessTokenExpiringSoon, h, specAccessExpiringSoon,
          jsSubMs, jsGeNow]
      | invalid =>
        simp [TokenManager.isAccessTokenExpiringSoon, h, specAccessExpiringSoon,
          jsSubMs, jsGeNow]
  · intro s hmiss
    cases h : s.accessTokenExpiresAt with
    | none =>
      simp [TokenStore.isAccessTokenExpiringSoonRun, hmiss, h, specAccessExpiringSoon]
    | some d =>
      cases d with
      | valid ms =>
        simp [TokenStore.isAccessTokenExpiringSoonRun, hmiss, h,
          specAccessExpiringSoon, jsSubMs, jsGeNow]
      | invalid =>
        simp [TokenStore.isAccessTokenExpiringSoonRun, hmiss, h,
          specAccessExpiringSoon, jsSubMs, jsGeNow]

/-- C8 witness: with a cold cache and the access expiry one minute in the
past, both variants answer true for the 10-minute threshold. -/
theorem C8_expiring_soon_witness :
    ({ TokenManager.empty with accessTokenExpiresAt := some (.valid 940000)
     } : TokenManager).isAccessTokenExpiringSoon 1000000 10 = true ∧
    TokenStore.cacheHit { TokenStore.initial with
      accessTokenExpiresAt := some (.valid 940000) } 1000000 = false ∧
    (({ TokenStore.initial with accessTokenExpiresAt := some (.valid 940000)
      } : TokenStore).isAccessTokenExpiringSoonRun 1000000 10).1 = true :=
  ⟨by
    rw [(C8_expiring_soon 1000000 10).1
      { TokenManager.empty with accessTokenExpiresAt := some (.valid 940000) }]
    decide,
   by decide,
   by
    rw [(C8_expiring_soon 1000000 10).2
      { TokenStore.initial with accessTokenExpiresAt := some (.valid 940000) }
      (by decide)]
    decide⟩

/-- C9: when no renewal is in flight and the last successful renewal
completed (at a positive `Date.now()` value) less than 30 seconds ago,
checkAndRefreshIfNeeded returns Ok(true) immediately: the expiry
evaluator does not run, refreshTokens is not entered (so no renewal can
be triggered, whatever the network or persistence would do), and the
store and persistence are unchanged. -/
theorem C9_recent_refresh_skip (s : TokenStore) (st : Persisted)
    (api : ApiOutcome) (persistFails : Bool) (now t : Int) (opId : Nat)
    (h0 : s.refreshPromise = none) (h1 : s.lastRefreshTime = some t)
    (h2 : 0 < t) (h3 : now - t < 30000) :
    (s.checkAndRefreshIfNeededRun st api persistFails now opId).1 =
      .settled (.Ok true) ∧
    (s.checkAndRefreshIfNeededRun st api persistFails now opId).2.1 = s ∧
    (s.checkAndRefreshIfNeededRun st api persistFails now opId).2.2.1 = st ∧
    (s.checkAndRefreshIfNeededRun st api persistFails now opId).2.2.2 =
      ⟨false, false⟩ := by
  have hrecent : s.recentRefresh now = true := by
    simp [TokenStore.recentRefresh, h1, h3]
    omega
  simp [TokenStore.checkAndRefreshIfNeededRun, h0, hrecent]

/-- C9 witness: 10 seconds after a renewal, the pre-request check is a
pure Ok(true) even though the access credential is long expired. -/
theorem C9_recent_refresh_skip_witness :
    ({ TokenStore.initial with
       accessTokenExpiresAt := some (.valid 0),
       lastRefreshTime := some 990000 } : TokenStore).refreshPromise = none ∧
    (0 : Int) < 990000 ∧ (1000000 : Int) - 990000 < 30000 ∧
    (({ TokenStore.initial with
        accessTokenExpiresAt := some (.valid 0),
        lastRefreshTime := some 990000 } : TokenStore).checkAndRefreshIfNeededRun
      Persisted.empty .err false 1000000 7).2.2.2 = ⟨false, false⟩ :=
  ⟨rfl, by decide, by decide,
   (C9_recent_refresh_skip
     { TokenStore.initial with
       accessTokenExpiresAt := some (.valid 0),
       lastRefreshTime := some 990000 } Persisted.empty .err false 1000000
     990000 7 rfl rfl (by decide) (by decide)).2.2.2⟩

/-- C10: while withdrawal mode is active (interceptorsDisabled = true),
handleUnauthorized — the one function every unauthorized trigger funnels
into (renewal failure, missing credential, 401 handling) — is a no-op:
the client state, its credential fields and its persistence are unchanged,
clearTokens is not invoked and the registered unauthenticated callback is
not invoked. -/
theorem C10_withdrawal_noop (c : ApiClientState)
    (h : c.interceptorsDisabled = true) :
    c.handleUnauthorizedRun = (c, ⟨false, false⟩) := by
  simp [ApiClientState.handleUnauthorizedRun, h]

/-- C10 witness: a disabled client with credentials present is left
untouched by handleUnauthorized. -/
theorem C10_withdrawal_noop_witness :
    ({ tm := { TokenManager.empty with refreshToken := some "rt" }
       persisted := Persisted.empty, interceptorsDisabled := true
       hasUnauthorizedCallback := true } : ApiClientState).handleUnauthorizedRun =
    ({ tm := { TokenManager.empty with refreshToken := some "rt" }
       persisted := Persisted.empty, interceptorsDisabled := true
       hasUnauthorizedCallback := true }, ⟨false, false⟩) :=
  C10_withdrawal_noop
    { tm := { TokenManager.empty with refreshToken := some "rt" }
      persisted := Persisted.empty, interceptorsDisabled := true
      hasUnauthorizedCallback := true } rfl

end Shared
